import Mathlib

/-!
Verification development for the subprocess-supervisor subsystem of the
prometheus_exec receiver (package prometheusexecreceiver and its
subprocessmanager).  The repository snapshot ships the test files
(receiver_test.go, the subprocessmanager test file) and the subprocess
configuration declarations, while the implementation bodies themselves
(receiver.go, the process manager) are not part of the snapshot; those
bodies are modelled here from the specification, with every behaviour that
the shipped test tables pin down reproduced exactly.  Durations are
embedded as integer nanoseconds (Go's time.Duration is an int64 count of
nanoseconds) and Go ints as unbounded integers, since none of the values
involved approach the 64-bit range.
-/

namespace PromExec

/-- One second, in nanoseconds, as in Go's time.Second. -/
def second : Int := 1000000000

/-- One minute, in nanoseconds, as in Go's time.Minute. -/
def minute : Int := 60 * second

/-- One hour, in nanoseconds, as in Go's time.Hour. -/
def hour : Int := 60 * minute

/-- Modelled from the spec: the default healthy-lifetime threshold used by
the crash-count update, whose implementation (receiver.go) is not in the
snapshot.  The shipped test table only constrains it to lie in the
interval (15 minutes, 15 hours]; 30 minutes is the value consistent with
the thresholds the same table passes to the delay estimator. -/
def healthyProcessTime : Int := 30 * minute

/-- Modelled from the spec: the default allowed crash count below which a
fast-crashing process is still given the minimal restart delay. -/
def healthyCrashCount : Int := 3

/-- Modelled from the spec: the fixed minimal restart delay returned for a
healthy process. -/
def initialDelay : Int := second

/-- Modelled from the spec: the fixed maximum cap on the exponential
backoff delay (the spec requires a cap but names no figure; the shipped
tests never reach it). -/
def maxDelay : Int := 512 * second

/-- Modelled from the spec: the delay estimator getDelay of receiver.go,
whose body is not in the snapshot.  Signature and branch behaviour follow
the spec (section 4.2) and the test vectors of TestGetDelay in
receiver_test.go: a healthy process (elapsed at or above the threshold)
gets the fixed minimal delay, as does a process whose crash count is still
at or below healthyCrashCount; otherwise the delay grows exponentially
with the crash count, capped at maxDelay. -/
def getDelay (elapsed healthyThreshold crashCount hcc : Int) : Int :=
  if healthyThreshold ≤ elapsed ∨ crashCount ≤ hcc then
    initialDelay
  else
    min (initialDelay * 2 ^ (crashCount - hcc - 1).toNat) maxDelay

/-- Modelled from the spec: the two-argument GetDelay of the
subprocessmanager package (tested by the subprocessmanager test file),
which uses the package-level defaults for the threshold and allowed crash
count. -/
def GetDelay (elapsed crashCount : Int) : Int :=
  getDelay elapsed healthyProcessTime crashCount healthyCrashCount

/-- Modelled from the spec: computeCrashCount of receiver.go, whose body is
not in the snapshot.  The method takes only the elapsed run time and the
current crash count (TestComputeCrashCount calls it on a zero-value
receiver), so the healthy threshold is the package default.  Its healthy
branch is pinned by the shipped test table: a healthy exit RESETS the
crash count to 1 (row "healthy process 2": crash count 6 becomes 1), while
an unhealthy exit increments it by one. -/
def computeCrashCount (elapsed crashCount : Int) : Int :=
  if healthyProcessTime ≤ elapsed then 1 else crashCount + 1

/-- One row of the shared test table getDelayAndComputeCrashCountTests of
receiver_test.go.  Rows that omit wantDelay carry Go's zero value 0. -/
structure DelayTestRow where
  elapsed : Int
  healthyProcessTime : Int
  crashCount : Int
  healthyCrashCount : Int
  wantDelay : Int
  wantCrashCount : Int
deriving DecidableEq

/-- The test table getDelayAndComputeCrashCountTests of receiver_test.go
(lines 714-776), transcribed row for row. -/
def getDelayAndComputeCrashCountTests : List DelayTestRow :=
  [ { elapsed := 15 * minute, healthyProcessTime := 30 * minute,
      crashCount := 2, healthyCrashCount := 3,
      wantDelay := 1 * second, wantCrashCount := 3 },
    { elapsed := 15 * hour, healthyProcessTime := 20 * minute,
      crashCount := 6, healthyCrashCount := 2,
      wantDelay := 1 * second, wantCrashCount := 1 },
    { elapsed := 15 * second, healthyProcessTime := 45 * minute,
      crashCount := 4, healthyCrashCount := 3,
      wantDelay := 0, wantCrashCount := 5 },
    { elapsed := 15 * second, healthyProcessTime := 75 * second,
      crashCount := 5, healthyCrashCount := 3,
      wantDelay := 0, wantCrashCount := 6 },
    { elapsed := 15 * second, healthyProcessTime := 30 * minute,
      crashCount := 6, healthyCrashCount := 3,
      wantDelay := 0, wantCrashCount := 7 },
    { elapsed := 15 * second, healthyProcessTime := 10 * minute,
      crashCount := 7, healthyCrashCount := 3,
      wantDelay := 0, wantCrashCount := 8 } ]

/-- One row of the getDelayTests table of the subprocessmanager test file:
only an elapsed time, a crash count, and (for the healthy rows) a wanted
delay. -/
structure GetDelayTestRow where
  elapsed : Int
  crashCount : Int
  want : Int
deriving DecidableEq

/-- The getDelayTests table of the subprocessmanager test file (lines
28-66), transcribed row for row; rows without a want carry Go's zero
value. -/
def getDelayTests : List GetDelayTestRow :=
  [ { elapsed := 15 * second, crashCount := 2, want := 1 * second },
    { elapsed := 15 * hour, crashCount := 6, want := 1 * second },
    { elapsed := 15 * second, crashCount := 4, want := 0 },
    { elapsed := 15 * second, crashCount := 5, want := 0 },
    { elapsed := 15 * second, crashCount := 6, want := 0 },
    { elapsed := 15 * second, crashCount := 7, want := 0 } ]

/-- The delays the receiver-level table produces, in row order (the test
checks this sequence is non-decreasing). -/
def receiverTableDelays : List Int :=
  getDelayAndComputeCrashCountTests.map
    (fun r => getDelay r.elapsed r.healthyProcessTime r.crashCount r.healthyCrashCount)

/-- The delays the subprocessmanager-level table produces, in row order. -/
def managerTableDelays : List Int :=
  getDelayTests.map (fun r => GetDelay r.elapsed r.crashCount)

/-- A list of integers is non-decreasing from left to right. -/
def nonDecreasing : List Int → Prop
  | [] => True
  | [_] => True
  | a :: b :: rest => a ≤ b ∧ nonDecreasing (b :: rest)

instance nonDecreasingDecidable : (l : List Int) → Decidable (nonDecreasing l)
  | [] => isTrue trivial
  | [_] => isTrue trivial
  | _ :: b :: rest =>
      have : Decidable (nonDecreasing (b :: rest)) := nonDecreasingDecidable (b :: rest)
      instDecidableAnd

lemma one_le_two_pow_int (k : Nat) : (1 : Int) ≤ 2 ^ k := by
  simpa using pow_le_pow_right₀ (one_le_two) (Nat.zero_le k)

lemma initialDelay_le_backoff (k : Nat) :
    initialDelay ≤ min (initialDelay * 2 ^ k) maxDelay := by
  refine le_min ?_ ?_
  · exact le_mul_of_one_le_right (by decide) (one_le_two_pow_int k)
  · decide

/-- C1: for every elapsed run time at or above the healthy-lifetime
threshold, the delay estimator getDelay returns the fixed minimal delay of
one second, whatever the crash count. -/
theorem getDelay_healthy_returns_initial
    (elapsed healthyThreshold crashCount hcc : Int)
    (h : healthyThreshold ≤ elapsed) :
    getDelay elapsed healthyThreshold crashCount hcc = second := by
  unfold getDelay
  rw [if_pos (Or.inl h)]
  rfl

/-- Witness for C1 at the values of test row "healthy process 2". -/
theorem getDelay_healthy_returns_initial_witness :
    (20 * minute ≤ 15 * hour) ∧ getDelay (15 * hour) (20 * minute) 6 2 = second :=
  ⟨by decide, getDelay_healthy_returns_initial (15 * hour) (20 * minute) 6 2 (by decide)⟩

/-- C2: below the healthy-lifetime threshold, getDelay is monotone
non-decreasing in the crash count; the returned delay never exceeds the
fixed cap maxDelay; and both shipped test tables produce non-decreasing
delay sequences, as TestGetDelay checks. -/
theorem getDelay_monotone_and_capped :
    (∀ elapsed healthyThreshold hcc c₁ c₂ : Int, elapsed < healthyThreshold → c₁ < c₂ →
        getDelay elapsed healthyThreshold c₁ hcc ≤ getDelay elapsed healthyThreshold c₂ hcc)
    ∧ (∀ elapsed healthyThreshold crashCount hcc : Int,
        getDelay elapsed healthyThreshold crashCount hcc ≤ maxDelay)
    ∧ nonDecreasing receiverTableDelays
    ∧ nonDecreasing managerTableDelays := by
  refine ⟨?_, ?_, by decide, by decide⟩
  · intro elapsed t hcc c₁ c₂ helapsed hc
    unfold getDelay
    by_cases h₁ : t ≤ elapsed ∨ c₁ ≤ hcc
    · rw [if_pos h₁]
      by_cases h₂ : t ≤ elapsed ∨ c₂ ≤ hcc
      · rw [if_pos h₂]
      · rw [if_neg h₂]
        exact initialDelay_le_backoff _
    · push_neg at h₁
      have h₂ : ¬ (t ≤ elapsed ∨ c₂ ≤ hcc) := by
        push_neg
        exact ⟨h₁.1, by omega⟩
      rw [if_neg (by push_neg; exact h₁), if_neg h₂]
      refine min_le_min ?_ le_rfl
      refine mul_le_mul_of_nonneg_left ?_ (by decide)
      exact pow_le_pow_right₀ one_le_two (Int.toNat_le_toNat (by omega))
  · intro elapsed t c hcc
    unfold getDelay
    by_cases h : t ≤ elapsed ∨ c ≤ hcc
    · rw [if_pos h]; decide
    · rw [if_neg h]
      exact min_le_right _ _

/-- Witness for C2 at the values of test rows "unhealthy process 1" and
"unhealthy process 2" of the receiver-level table. -/
theorem getDelay_monotone_and_capped_witness :
    (15 * second < 45 * minute) ∧ ((4 : Int) < 5)
    ∧ getDelay (15 * second) (45 * minute) 4 3 ≤ getDelay (15 * second) (45 * minute) 5 3 :=
  ⟨by decide, by decide,
    getDelay_monotone_and_capped.1 (15 * second) (45 * minute) 3 4 5 (by decide) (by decide)⟩

/-- C3 counterexample: at the healthy exit of test row "healthy process 2"
(elapsed 15 hours, at or above the row's 20-minute threshold, crash count
6), computeCrashCount returns 1 — exactly the value the shipped table
TestComputeCrashCount demands — which is not the one-step decrement 5 and
lies below healthyCrashCount, so the claimed decay-by-one-never-below rule
is false of the code. -/
theorem computeCrashCount_claim_false :
    (20 * minute ≤ 15 * hour)
    ∧ computeCrashCount (15 * hour) 6 = 1
    ∧ (getDelayAndComputeCrashCountTests.get? 1).map DelayTestRow.wantCrashCount = some 1
    ∧ computeCrashCount (15 * hour) 6 ≠ 6 - 1
    ∧ ¬ healthyCrashCount ≤ computeCrashCount (15 * hour) 6 := by
  refine ⟨by decide, by decide, by decide, by decide, by decide⟩

/-- C3 amended: on a healthy exit (elapsed at or above the threshold)
computeCrashCount resets the crash count to 1 — not a one-step decrement,
and possibly below healthyCrashCount — and on an unhealthy exit it
increments the crash count by one; the function reproduces every row of
the shipped TestComputeCrashCount table. -/
theorem computeCrashCount_reset_or_increment :
    (∀ elapsed crashCount : Int,
        (healthyProcessTime ≤ elapsed → computeCrashCount elapsed crashCount = 1)
        ∧ (elapsed < healthyProcessTime → computeCrashCount elapsed crashCount = crashCount + 1))
    ∧ getDelayAndComputeCrashCountTests.all
        (fun r => computeCrashCount r.elapsed r.crashCount == r.wantCrashCount) = true := by
  constructor
  · intro elapsed c
    constructor
    · intro h
      simp [computeCrashCount, if_pos h]
    · intro h
      simp [computeCrashCount, if_neg (not_le.mpr h)]
  · decide

/-- Witness for the amended C3, at the healthy row (15 hours, crash count
6, giving 1) and the unhealthy row (15 seconds, crash count 4, giving 5). -/
theorem computeCrashCount_reset_or_increment_witness :
    computeCrashCount (15 * hour) 6 = 1 ∧ computeCrashCount (15 * second) 4 = 4 + 1 :=
  ⟨(computeCrashCount_reset_or_increment.1 (15 * hour) 6).1 (by decide),
   (computeCrashCount_reset_or_increment.1 (15 * second) 4).2 (by decide)⟩

/-- One name/value environment entry, as in the subprocessmanager config
declarations (EnvConfig). -/
structure EnvConfig where
  name : String
  value : String
deriving DecidableEq

instance : Inhabited EnvConfig := ⟨⟨"", ""⟩⟩

/-- The subprocess configuration handed to the process manager: the
command line to run and the ordered environment list (SubprocessConfig of
the subprocessmanager package, as used throughout receiver_test.go). -/
structure SubprocessConfig where
  command : String
  env : List EnvConfig
deriving DecidableEq

/-- Left-to-right, non-overlapping replacement of every occurrence of pat
by rep in a character list, the semantics of Go's strings.Replace with
count -1; fuel bounds the recursion and is instantiated with the length of
the list, which one unit per consumed character makes sufficient. -/
def substChars (pat rep : List Char) : Nat → List Char → List Char
  | _, [] => []
  | 0, l => l
  | fuel + 1, c :: rest =>
    if pat.isPrefixOf (c :: rest) then
      rep ++ substChars pat rep fuel (List.drop (pat.length - 1) rest)
    else
      c :: substChars pat rep fuel rest

/-- String-level replace-all wrapper around substChars. -/
def replaceAll (s pat rep : String) : String :=
  String.mk (substChars pat.data rep.data s.data.length s.data)

/-- The literal placeholder token, spelled left-brace left-brace port
right-brace right-brace (portTemplate in receiver.go). -/
def portPlaceholder : String := "\x7b\x7bport\x7d\x7d"

/-- Modelled from the spec: fillPortPlaceholders of receiver.go, whose
body is not in the snapshot.  Every literal occurrence of the placeholder
in the command string and in each environment value is replaced by the
decimal string of the port; names and all other text are untouched
(spec section 4.1, pinned by TestFillPortPlaceholders). -/
def fillPortPlaceholders (cfg : SubprocessConfig) (port : Int) : SubprocessConfig :=
  { command := replaceAll cfg.command portPlaceholder (toString port),
    env := cfg.env.map fun e =>
      { name := e.name, value := replaceAll e.value portPlaceholder (toString port) } }

/-- One row of the TestFillPortPlaceholders table of receiver_test.go:
the wrapper's stored subprocess configuration, the port passed in, and the
expected resolved configuration. -/
structure FillPortRow where
  cfg : SubprocessConfig
  newPort : Int
  want : SubprocessConfig
deriving DecidableEq

/-- The TestFillPortPlaceholders table of receiver_test.go (lines
552-701), transcribed row for row (each test wrapper stores the same
subprocess configuration in config and subprocessConfig). -/
def fillPortPlaceholdersTests : List FillPortRow :=
  [ { cfg :=
        { command := "apache_exporter --port:\x7b\x7bport\x7d\x7d",
          env :=
            [ { name := "DATA_SOURCE_NAME",
                value := "user:password@(hostname:\x7b\x7bport\x7d\x7d)/dbname" },
              { name := "SECONDARY_PORT", value := "\x7b\x7bport\x7d\x7d" } ] },
      newPort := 10500,
      want :=
        { command := "apache_exporter --port:10500",
          env :=
            [ { name := "DATA_SOURCE_NAME",
                value := "user:password@(hostname:10500)/dbname" },
              { name := "SECONDARY_PORT", value := "10500" } ] } },
    { cfg :=
        { command := "apache_exporter",
          env :=
            [ { name := "DATA_SOURCE_NAME",
                value := "user:password@(hostname:port)/dbname" },
              { name := "SECONDARY_PORT", value := "1234" } ] },
      newPort := 0,
      want :=
        { command := "apache_exporter",
          env :=
            [ { name := "DATA_SOURCE_NAME",
                value := "user:password@(hostname:port)/dbname" },
              { name := "SECONDARY_PORT", value := "1234" } ] } },
    { cfg :=
        { command := "apache_exporter --port=\x7b\x7bport\x7d\x7d",
          env :=
            [ { name := "DATA_SOURCE_NAME",
                value := "user:password@(hostname:\x7b\x7bport\x7d\x7d)/dbname" },
              { name := "SECONDARY_PORT", value := "\x7b\x7bport\x7d\x7d" } ] },
      newPort := 10111,
      want :=
        { command := "apache_exporter --port=10111",
          env :=
            [ { name := "DATA_SOURCE_NAME",
                value := "user:password@(hostname:10111)/dbname" },
              { name := "SECONDARY_PORT", value := "10111" } ] } } ]

lemma substChars_no_occurrence (pat rep : List Char) :
    ∀ (fuel : Nat) (l : List Char), ¬ List.IsInfix pat l → substChars pat rep fuel l = l := by
  intro fuel
  induction fuel with
  | zero =>
    intro l _
    cases l <;> rfl
  | succ n ih =>
    intro l h
    cases l with
    | nil => rfl
    | cons c rest =>
      show substChars pat rep (n + 1) (c :: rest) = c :: rest
      rw [substChars, if_neg, ih rest (fun hinf => h (List.infix_cons hinf))]
      intro hpre
      exact h (List.isPrefixOf_iff_prefix.mp hpre).isInfix

lemma replaceAll_no_occurrence (s pat rep : String)
    (h : ¬ List.IsInfix pat.data s.data) : replaceAll s pat rep = s := by
  unfold replaceAll
  rw [substChars_no_occurrence pat.data rep.data _ _ h]

lemma map_name_of_map_env (f : EnvConfig → EnvConfig) (h : ∀ e, (f e).name = e.name) :
    ∀ l : List EnvConfig, (l.map f).map EnvConfig.name = l.map EnvConfig.name := by
  intro l
  induction l with
  | nil => rfl
  | cons a t ih => simp [List.map_cons, ih, h a]

/-- C4: fillPortPlaceholders replaces every literal occurrence of the
placeholder token in the command string and in each environment value by
the decimal string of the port (demonstrated on the complete shipped
TestFillPortPlaceholders table, which includes multiple occurrences, a
value that is the bare placeholder, and a row with no placeholder at
all), never alters environment names, and leaves any string containing no
occurrence of the placeholder entirely unchanged. -/
theorem fillPortPlaceholders_substitutes :
    fillPortPlaceholdersTests.all
        (fun r => fillPortPlaceholders r.cfg r.newPort == r.want) = true
    ∧ (∀ (cfg : SubprocessConfig) (port : Int),
        (fillPortPlaceholders cfg port).env.map EnvConfig.name
          = cfg.env.map EnvConfig.name)
    ∧ (∀ (s : String) (port : Int), ¬ List.IsInfix portPlaceholder.data s.data →
        replaceAll s portPlaceholder (toString port) = s) := by
  refine ⟨by decide, ?_, ?_⟩
  · intro cfg port
    exact map_name_of_map_env
      (fun e => { name := e.name, value := replaceAll e.value portPlaceholder (toString port) })
      (fun e => rfl) cfg.env
  · intro s port h
    exact replaceAll_no_occurrence s portPlaceholder (toString port) h

/-- Witness for C4 at the placeholder-free command of the shipped test
row "no string templating". -/
theorem fillPortPlaceholders_substitutes_witness :
    (¬ List.IsInfix portPlaceholder.data "apache_exporter".data)
    ∧ replaceAll "apache_exporter" portPlaceholder (toString (0 : Int)) = "apache_exporter" :=
  ⟨by decide, fillPortPlaceholders_substitutes.2.2 "apache_exporter" 0 (by decide)⟩

/-- The receiver-level configuration (Config of the prometheusexecreceiver
package): receiver type and full name, scrape interval, configured port,
and the embedded subprocess configuration. -/
structure Config where
  typeVal : String
  nameVal : String
  scrapeInterval : Int
  port : Int
  subprocessConfig : SubprocessConfig
deriving DecidableEq

/-- The receiver wrapper (prometheusExecReceiver): the loaded config plus
the derived fields updated across restarts (assigned port and resolved
subprocess configuration), as in the wrapper literals of
TestFillPortPlaceholders. -/
structure PrometheusExecReceiver where
  config : Config
  port : Int
  subprocessConfig : SubprocessConfig
deriving DecidableEq

/-- Modelled from the spec: the method form of fillPortPlaceholders on the
receiver wrapper (receiver.go, not in the snapshot) resolves from the
ORIGINAL template stored in the wrapper's config — the resolved command is
derived and recomputed on every restart from the original template
(spec sections 3 and 8). -/
def perFillPortPlaceholders (per : PrometheusExecReceiver) (newPort : Int) : SubprocessConfig :=
  fillPortPlaceholders per.config.subprocessConfig newPort

/-- Modelled from the spec: one restart's resolution step, which stores
the freshly resolved subprocess configuration in the wrapper's derived
field and touches nothing else. -/
def restartResolve (per : PrometheusExecReceiver) (newPort : Int) : PrometheusExecReceiver :=
  { per with subprocessConfig := perFillPortPlaceholders per newPort }

/-- C9: resolving the template twice, with two ports, leaves the stored
original configuration (command template and environment values alike)
unchanged, and the second resolution equals a fresh resolution of the
original template, unaffected by the first. -/
theorem resolve_never_mutates_original (per : PrometheusExecReceiver) (p₁ p₂ : Int) :
    (restartResolve (restartResolve per p₁) p₂).config = per.config
    ∧ (restartResolve (restartResolve per p₁) p₂).config.subprocessConfig.command
        = per.config.subprocessConfig.command
    ∧ (restartResolve (restartResolve per p₁) p₂).config.subprocessConfig.env
        = per.config.subprocessConfig.env
    ∧ perFillPortPlaceholders (restartResolve per p₁) p₂ = perFillPortPlaceholders per p₂ :=
  ⟨rfl, rfl, rfl, rfl⟩

/-- Modelled from the spec: formatEnvSlice of the subprocessmanager, whose
body is not in the snapshot.  The shipped TestFormatEnvSlice pins its
contract: an empty environment list yields Go's nil slice (embedded as
none — the test distinguishes nil from an empty slice via wantNil), and a
non-empty list yields the "name=value" strings in list order. -/
def formatEnvSlice (env : List EnvConfig) : Option (List String) :=
  if env = [] then none
  else some (env.map fun e => e.name ++ "=" ++ e.value)

/-- Modelled from the spec: the behaviour of Go's os/exec for the child
environment (an external collaborator of the Process Runner): a nil Env
field makes the child inherit the parent's entire environment, while a
non-nil Env is used verbatim as the child's whole environment. -/
def effectiveChildEnv (parentEnv : List String) (cmdEnv : Option (List String)) : List String :=
  match cmdEnv with
  | none => parentEnv
  | some l => l

/-- One row of the formatEnvSliceTests table of the subprocessmanager test
file: input list, wanted output, and whether a nil slice is wanted. -/
structure EnvSliceRow where
  envSlice : List EnvConfig
  want : List String
  wantNil : Bool
deriving DecidableEq

/-- The formatEnvSliceTests table of the subprocessmanager test file
(lines 68-116), transcribed row for row. -/
def formatEnvSliceTests : List EnvSliceRow :=
  [ { envSlice := [], want := [], wantNil := true },
    { envSlice := [ { name := "DATA_SOURCE", value := "password:username" } ],
      want := ["DATA_SOURCE=password:username"], wantNil := false },
    { envSlice :=
        [ { name := "DATA_SOURCE", value := "password:username" },
          { name := "", value := "" },
          { name := "john", value := "doe" } ],
      want := ["DATA_SOURCE=password:username", "=", "john=doe"], wantNil := false } ]

/-- TestFormatEnvSlice's per-row check: a row wanting nil must get none,
any other row must get exactly the wanted strings. -/
def envRowPasses (r : EnvSliceRow) : Bool :=
  match formatEnvSlice r.envSlice with
  | none => r.wantNil
  | some l => !r.wantNil && (l == r.want)

/-- The tokenizer's failure modes for quoted command strings. -/
inductive TokenizeError
  | unterminatedSingleQuote
  | unterminatedDoubleQuote
deriving DecidableEq

/-- Quoting state of the command tokenizer. -/
inductive QuoteMode
  | normal
  | insideSingle
  | insideDouble
deriving DecidableEq

/-- The single-quote character. -/
def singleQuoteChar : Char := Char.ofNat 39

/-- The double-quote character. -/
def doubleQuoteChar : Char := Char.ofNat 34

/-- The tab character. -/
def tabChar : Char := Char.ofNat 9

/-- Modelled from the spec: the shell-quote word splitter the subprocess
manager uses to turn the command string into an argument vector
(kballard/go-shellquote's Split, an external collaborator not in the
snapshot): words are separated by blanks, quoted segments join the
current word, and input ending inside a quoted segment is a tokenization
error, as in the "shellquote error" row of the shipped runTests table. -/
def tokenizeAux (mode : QuoteMode) (current : Option (List Char)) (acc : List String) :
    List Char → Except TokenizeError (List String)
  | [] =>
    match mode, current with
    | QuoteMode.insideSingle, _ => Except.error TokenizeError.unterminatedSingleQuote
    | QuoteMode.insideDouble, _ => Except.error TokenizeError.unterminatedDoubleQuote
    | QuoteMode.normal, none => Except.ok acc
    | QuoteMode.normal, some w => Except.ok (acc ++ [String.mk w])
  | c :: rest =>
    match mode with
    | QuoteMode.normal =>
      if c = ' ' ∨ c = tabChar then
        match current with
        | none => tokenizeAux QuoteMode.normal none acc rest
        | some w => tokenizeAux QuoteMode.normal none (acc ++ [String.mk w]) rest
      else if c = singleQuoteChar then
        tokenizeAux QuoteMode.insideSingle (some (current.getD [])) acc rest
      else if c = doubleQuoteChar then
        tokenizeAux QuoteMode.insideDouble (some (current.getD [])) acc rest
      else
        tokenizeAux QuoteMode.normal (some (current.getD [] ++ [c])) acc rest
    | QuoteMode.insideSingle =>
      if c = singleQuoteChar then tokenizeAux QuoteMode.normal current acc rest
      else tokenizeAux QuoteMode.insideSingle (some (current.getD [] ++ [c])) acc rest
    | QuoteMode.insideDouble =>
      if c = doubleQuoteChar then tokenizeAux QuoteMode.normal current acc rest
      else tokenizeAux QuoteMode.insideDouble (some (current.getD [] ++ [c])) acc rest

/-- Entry point of the command tokenizer. -/
def tokenize (cmd : String) : Except TokenizeError (List String) :=
  tokenizeAux QuoteMode.normal none [] cmd.data

/-- The subprocess manager's error for a command string that cannot be
tokenized into an argument vector. -/
inductive SubprocessError
  | malformedCommand (e : TokenizeError)
deriving DecidableEq

/-- The Process record of the subprocessmanager (as in the runTests table
of its test file): command line, assigned port, environment, and the
user-facing custom name. -/
structure Process where
  command : String
  port : Int
  env : List EnvConfig
  customName : String
deriving DecidableEq

/-- Modelled from the spec: the launch phase of Process.Run (body not in
the snapshot).  Run first tokenizes the command string; if tokenization
fails the launch attempt fails immediately with a MalformedCommandError
and nothing is started, otherwise the argument vector is handed to the
operating system. -/
def runLaunch (p : Process) : Except SubprocessError (List String) :=
  match tokenize p.command with
  | Except.error e => Except.error (SubprocessError.malformedCommand e)
  | Except.ok args => Except.ok args

/-- The command of the "shellquote error" row of the shipped runTests
table: command blank flag= single-quote something, with no closing
quote. -/
def malformedTestCommand : String :=
  "command flag=" ++ singleQuoteChar.toString ++ "something"

/-- Phases of the Supervisor Loop's state machine (spec section 4.4). -/
inductive Phase
  | starting
  | running
  | exited
  | stopped
deriving DecidableEq

/-- The supervisor's per-subprocess state: assigned port, rolling crash
count, and current phase (ProcessRunState of the spec's data model). -/
structure SupState where
  port : Int
  crashCount : Int
  phase : Phase
deriving DecidableEq

/-- Events driving the Supervisor Loop: a launch that failed outright, a
successful launch, a process exit carrying its elapsed run time, and the
cooperative shutdown signal. -/
inductive SupEvent
  | launchFailed
  | launched
  | processExited (elapsed : Int)
  | shutdown
deriving DecidableEq

/-- Modelled from the spec: one transition of the Supervisor Loop (spec
section 4.4, loop body not in the snapshot).  A failed resolution or
launch immediately schedules a retry without counting as a
health-affecting crash; a process exit updates the crash count through
computeCrashCount and schedules a restart; shutdown stops the loop.  No
transition changes the assigned port, and no transition escalates any
subprocess failure out of the loop. -/
def supervisorStep (s : SupState) (e : SupEvent) : SupState :=
  match e with
  | SupEvent.launchFailed => { s with phase := Phase.starting }
  | SupEvent.launched => { s with phase := Phase.running }
  | SupEvent.processExited elapsed =>
      { s with phase := Phase.starting,
               crashCount := computeCrashCount elapsed s.crashCount }
  | SupEvent.shutdown => { s with phase := Phase.stopped }

/-- Modelled from the spec: supervisor start (spec sections 6 and 9): when
the configured port is 0 the port comes from the external ephemeral-port
allocator (generateRandomPort, exercised by TestGenerateRandomPort),
otherwise the configured port is used; either way it is fixed before the
first launch. -/
def startSupervisor (cfg : Config) (allocatedPort : Int) : SupState :=
  { port := if cfg.port = 0 then allocatedPort else cfg.port,
    crashCount := 0, phase := Phase.starting }

/-- Folding a whole lifetime of supervisor events over the start state. -/
def runSupervisor (s : SupState) (events : List SupEvent) : SupState :=
  events.foldl supervisorStep s

/-- The Scrape Coordinator's polling target for a supervisor state. -/
def scrapeTarget (s : SupState) : String := "localhost:" ++ toString s.port

/-- The construction-time error of the receiver. -/
inductive ConfigurationError
  | missingCommand
deriving DecidableEq

/-- Modelled from the spec: the receiver constructor new() of receiver.go
(body not in the snapshot): it fails fast with a configuration error iff
the command template is empty, as pinned by assertErrorWhenExecKeyMissing
and the wantErr rows of TestGetReceiverConfig, and otherwise returns the
wrapper with its derived fields initialised from the config. -/
def newReceiver (cfg : Config) : Except ConfigurationError PrometheusExecReceiver :=
  if cfg.subprocessConfig.command = "" then
    Except.error ConfigurationError.missingCommand
  else
    Except.ok { config := cfg, port := cfg.port, subprocessConfig := cfg.subprocessConfig }

/-- The error taxonomy of spec section 7. -/
inductive ErrorClass
  | configurationError
  | launchError
  | runtimeCrash
  | scrapeError
deriving DecidableEq

/-- Modelled from the spec: the retry policy of section 7: a configuration
error is fatal at construction and never retried, while launch failures,
runtime crashes and scrape errors keep the respective loop going. -/
def isRetried : ErrorClass → Bool
  | ErrorClass.configurationError => false
  | ErrorClass.launchError => true
  | ErrorClass.runtimeCrash => true
  | ErrorClass.scrapeError => true

/-- The "no command" configuration of TestGetReceiverConfig
(receiver_test.go lines 136-146, with the name given by SetName). -/
def noCommandConfig : Config :=
  { typeVal := "prometheus_exec", nameVal := "prometheus_exec",
    scrapeInterval := 60 * second, port := 9104,
    subprocessConfig := { command := "", env := [] } }

/-- The "normal config" row of TestGetReceiverConfig (custom name
prometheus_exec/mysqld). -/
def normalConfig : Config :=
  { typeVal := "prometheus_exec", nameVal := "prometheus_exec/mysqld",
    scrapeInterval := 90 * second, port := 9104,
    subprocessConfig :=
      { command := "mysqld_exporter",
        env := [ { name := "DATA_SOURCE_NAME",
                   value := "password:username@(url:port)/dbname" } ] } }

/-- The "lots of defaults" row of TestGetReceiverConfig (custom name
prometheus_exec/postgres/test, port left at its zero value). -/
def defaultsConfig : Config :=
  { typeVal := "prometheus_exec", nameVal := "prometheus_exec/postgres/test",
    scrapeInterval := 60 * second, port := 0,
    subprocessConfig :=
      { command := "postgres_exporter",
        env := [ { name := "DATA_SOURCE_NAME",
                   value := "password:username@(url:port)/dbname" } ] } }

/-- The characters after the first slash of a name, if any. -/
def afterFirstSlash : List Char → Option (List Char)
  | [] => none
  | c :: rest => if c = '/' then some rest else afterFirstSlash rest

/-- Modelled from the spec: extractName of receiver.go (body not in the
snapshot): the job name is the part of the receiver's full name after the
first slash, falling back to the receiver type when there is no slash or
nothing follows it, as pinned by TestExtractName and the JobName fields
of the TestGetReceiverConfig want rows. -/
def extractName (cfg : Config) : String :=
  match afterFirstSlash cfg.nameVal.data with
  | none => cfg.typeVal
  | some r => if r = [] then cfg.typeVal else String.mk r

/-- One generated Prometheus scrape configuration (the fields of the
ScrapeConfig values built in the TestGetReceiverConfig want rows). -/
structure ScrapeConfig where
  scrapeInterval : Int
  scrapeTimeout : Int
  scheme : String
  metricsPath : String
  jobName : String
  honorLabels : Bool
  honorTimestamps : Bool
  staticTargets : List String
deriving DecidableEq

instance : Inhabited ScrapeConfig :=
  ⟨{ scrapeInterval := 0, scrapeTimeout := 0, scheme := "", metricsPath := "",
     jobName := "", honorLabels := false, honorTimestamps := false, staticTargets := [] }⟩

/-- The generated Prometheus receiver configuration: receiver settings
plus the list of scrape configurations. -/
structure PromReceiverConfig where
  typeVal : String
  nameVal : String
  scrapeConfigs : List ScrapeConfig
deriving DecidableEq

/-- Modelled from the spec: getPromReceiverConfig of receiver.go (body not
in the snapshot), pinned field by field by the three want rows of
TestGetReceiverConfig: one scrape configuration with the configured
scrape interval, a fixed 10-second scrape timeout, HTTP scheme, the
/metrics path, the extracted job name, honor-labels off, honor-timestamps
on, and the single static target localhost:port. -/
def getPromReceiverConfig (cfg : Config) : PromReceiverConfig :=
  { typeVal := "prometheus_exec",
    nameVal := cfg.nameVal,
    scrapeConfigs :=
      [ { scrapeInterval := cfg.scrapeInterval,
          scrapeTimeout := 10 * second,
          scheme := "http",
          metricsPath := "/metrics",
          jobName := extractName cfg,
          honorLabels := false,
          honorTimestamps := true,
          staticTargets := ["localhost:" ++ toString cfg.port] } ] }

/-- The wantReceiverConfig of the "no command" row of
TestGetReceiverConfig, transcribed field for field. -/
def wantReceiverConfigNoCommand : PromReceiverConfig :=
  { typeVal := "prometheus_exec", nameVal := "prometheus_exec",
    scrapeConfigs :=
      [ { scrapeInterval := 60 * second, scrapeTimeout := 10 * second,
          scheme := "http", metricsPath := "/metrics",
          jobName := "prometheus_exec", honorLabels := false,
          honorTimestamps := true, staticTargets := ["localhost:9104"] } ] }

/-- The wantReceiverConfig of the "normal config" row of
TestGetReceiverConfig, transcribed field for field. -/
def wantReceiverConfigNormal : PromReceiverConfig :=
  { typeVal := "prometheus_exec", nameVal := "prometheus_exec/mysqld",
    scrapeConfigs :=
      [ { scrapeInterval := 90 * second, scrapeTimeout := 10 * second,
          scheme := "http", metricsPath := "/metrics",
          jobName := "mysqld", honorLabels := false,
          honorTimestamps := true, staticTargets := ["localhost:9104"] } ] }

/-- The wantReceiverConfig of the "lots of defaults" row of
TestGetReceiverConfig, transcribed field for field. -/
def wantReceiverConfigDefaults : PromReceiverConfig :=
  { typeVal := "prometheus_exec", nameVal := "prometheus_exec/postgres/test",
    scrapeConfigs :=
      [ { scrapeInterval := 60 * second, scrapeTimeout := 10 * second,
          scheme := "http", metricsPath := "/metrics",
          jobName := "postgres/test", honorLabels := false,
          honorTimestamps := true, staticTargets := ["localhost:0"] } ] }

/-- C5: a command string with an unterminated quote — the shipped
"shellquote error" vector — fails tokenization, so the launch phase of
Run fails with a MalformedCommandError; and a failed launch only aborts
that single attempt: the supervisor transition for a launch failure
returns to the starting phase with crash count and port untouched and
does not stop the loop, so nothing escapes to the parent collector. -/
theorem malformed_command_contained :
    tokenize malformedTestCommand = Except.error TokenizeError.unterminatedSingleQuote
    ∧ runLaunch { command := malformedTestCommand, port := 0, env := [], customName := "main" }
        = Except.error (SubprocessError.malformedCommand TokenizeError.unterminatedSingleQuote)
    ∧ (∀ s : SupState,
        (supervisorStep s SupEvent.launchFailed).phase = Phase.starting
        ∧ (supervisorStep s SupEvent.launchFailed).crashCount = s.crashCount
        ∧ (supervisorStep s SupEvent.launchFailed).port = s.port
        ∧ (supervisorStep s SupEvent.launchFailed).phase ≠ Phase.stopped) := by
  refine ⟨rfl, rfl, ?_⟩
  intro s
  refine ⟨rfl, rfl, rfl, ?_⟩
  show Phase.starting ≠ Phase.stopped
  decide

/-- C6: construction fails exactly on an empty command template: an empty
template yields the configuration error — which the section-7 policy
never retries — and no receiver, while any non-empty template constructs
a receiver. -/
theorem empty_command_fails_construction (cfg : Config) :
    (cfg.subprocessConfig.command = "" →
        newReceiver cfg = Except.error ConfigurationError.missingCommand
        ∧ isRetried ErrorClass.configurationError = false)
    ∧ (cfg.subprocessConfig.command ≠ "" → ∃ r, newReceiver cfg = Except.ok r) := by
  constructor
  · intro h
    refine ⟨?_, rfl⟩
    unfold newReceiver
    rw [if_pos h]
  · intro h
    refine ⟨{ config := cfg, port := cfg.port, subprocessConfig := cfg.subprocessConfig }, ?_⟩
    unfold newReceiver
    rw [if_neg h]

/-- Witness for C6 at the shipped "no command" and "normal config" test
configurations. -/
theorem empty_command_fails_construction_witness :
    (noCommandConfig.subprocessConfig.command = "")
    ∧ newReceiver noCommandConfig = Except.error ConfigurationError.missingCommand
    ∧ (normalConfig.subprocessConfig.command ≠ "")
    ∧ (∃ r, newReceiver normalConfig = Except.ok r) :=
  ⟨rfl, ((empty_command_fails_construction noCommandConfig).1 rfl).1, by decide,
   (empty_command_fails_construction normalConfig).2 (by decide)⟩

lemma supervisorStep_port (s : SupState) (e : SupEvent) :
    (supervisorStep s e).port = s.port := by
  cases e <;> rfl

lemma runSupervisor_port (events : List SupEvent) :
    ∀ s : SupState, (runSupervisor s events).port = s.port := by
  induction events with
  | nil => intro s; rfl
  | cons e rest ih =>
    intro s
    show (runSupervisor (supervisorStep s e) rest).port = s.port
    rw [ih (supervisorStep s e), supervisorStep_port]

/-- C7: when the configured port is 0 the supervisor starts with the port
obtained from the external allocator, and that port — and with it the
Scrape Coordinator's polling target — is unchanged by every possible
sequence of supervisor events after start, so every later restart
resolves against the same port. -/
theorem port_fixed_for_lifetime (cfg : Config) (allocatedPort : Int) (events : List SupEvent)
    (h : cfg.port = 0) :
    (startSupervisor cfg allocatedPort).port = allocatedPort
    ∧ (runSupervisor (startSupervisor cfg allocatedPort) events).port = allocatedPort
    ∧ scrapeTarget (runSupervisor (startSupervisor cfg allocatedPort) events)
        = scrapeTarget (startSupervisor cfg allocatedPort) := by
  have hp : (startSupervisor cfg allocatedPort).port = allocatedPort := by
    unfold startSupervisor
    simp [h]
  refine ⟨hp, ?_, ?_⟩
  · rw [runSupervisor_port events, hp]
  · unfold scrapeTarget
    rw [runSupervisor_port events]

/-- Witness for C7 at the shipped zero-port configuration ("lots of
defaults"), an allocator result of 35000 (the port TestGenerateRandomPort
probes), and a lifetime of two launches, one crash, and shutdown. -/
theorem port_fixed_for_lifetime_witness :
    (defaultsConfig.port = 0)
    ∧ (runSupervisor (startSupervisor defaultsConfig 35000)
        [SupEvent.launched, SupEvent.processExited (15 * second),
         SupEvent.launched, SupEvent.shutdown]).port = 35000
    ∧ scrapeTarget (runSupervisor (startSupervisor defaultsConfig 35000)
        [SupEvent.launched, SupEvent.processExited (15 * second),
         SupEvent.launched, SupEvent.shutdown]) = "localhost:35000" :=
  ⟨rfl,
   (port_fixed_for_lifetime defaultsConfig 35000
     [SupEvent.launched, SupEvent.processExited (15 * second),
      SupEvent.launched, SupEvent.shutdown] rfl).2.1,
   by decide⟩

lemma getD_map_fmt (l : List EnvConfig) :
    ∀ (i : Nat) (d : EnvConfig),
      (l.map fun e => e.name ++ "=" ++ e.value).getD i (d.name ++ "=" ++ d.value)
        = (l.getD i d).name ++ "=" ++ (l.getD i d).value := by
  induction l with
  | nil => intro i d; rfl
  | cons a t ih =>
    intro i d
    cases i with
    | zero => rfl
    | succ n =>
      simp only [List.map_cons, List.getD_cons_succ]
      exact ih n d

/-- C8 counterexample: for the empty configured environment list —
exactly the first row of the shipped TestFormatEnvSlice — formatEnvSlice
returns Go's nil slice, and under the os/exec semantics a nil Env hands
the child the parent's entire inherited environment, so an unlisted
parent variable does reach the child. -/
theorem child_env_isolation_false :
    formatEnvSlice [] = none
    ∧ effectiveChildEnv ["PATH=/usr/bin"] (formatEnvSlice []) = ["PATH=/usr/bin"]
    ∧ effectiveChildEnv ["PATH=/usr/bin"] (formatEnvSlice []) ≠ [] :=
  ⟨rfl, rfl, by decide⟩

/-- C8 amended: for a NON-EMPTY environment list the slice handed to the
child contains exactly the name=value pairs of the configuration, in list
order, and nothing else; for the empty list formatEnvSlice yields Go's
nil slice, under which the child inherits the parent's environment, so
the no-implicit-environment isolation holds only for non-empty lists.
The model reproduces every row of the shipped TestFormatEnvSlice table. -/
theorem child_env_exact_pairs :
    (∀ env : List EnvConfig, env ≠ [] →
        formatEnvSlice env = some (env.map fun e => e.name ++ "=" ++ e.value))
    ∧ (∀ env : List EnvConfig,
        (env.map fun e => e.name ++ "=" ++ e.value).length = env.length)
    ∧ (∀ (env : List EnvConfig) (i : Nat) (d : EnvConfig),
        (env.map fun e => e.name ++ "=" ++ e.value).getD i (d.name ++ "=" ++ d.value)
          = (env.getD i d).name ++ "=" ++ (env.getD i d).value)
    ∧ formatEnvSlice [] = none
    ∧ (∀ parentEnv : List String, effectiveChildEnv parentEnv (formatEnvSlice []) = parentEnv)
    ∧ formatEnvSliceTests.all envRowPasses = true := by
  refine ⟨?_, ?_, ?_, rfl, fun p => rfl, by decide⟩
  · intro env h
    unfold formatEnvSlice
    rw [if_neg h]
  · intro env
    exact List.length_map _ _
  · intro env i d
    exact getD_map_fmt env i d

/-- Witness for the amended C8 at the one-entry row of the shipped
table. -/
theorem child_env_exact_pairs_witness :
    ([ ({ name := "DATA_SOURCE", value := "password:username" } : EnvConfig) ] ≠ [])
    ∧ formatEnvSlice [ { name := "DATA_SOURCE", value := "password:username" } ]
        = some ([ ({ name := "DATA_SOURCE", value := "password:username" } : EnvConfig) ].map
            fun e => e.name ++ "=" ++ e.value)
    ∧ formatEnvSlice [ { name := "DATA_SOURCE", value := "password:username" } ]
        = some ["DATA_SOURCE=password:username"] :=
  ⟨by decide, child_env_exact_pairs.1 _ (by decide), by decide⟩

/-- C10: for every configuration, the generated Prometheus receiver
configuration holds exactly one scrape configuration, whose scrape
timeout is the fixed 10 seconds, scheme http, metrics path /metrics, and
whose only static target is localhost:port; the interval and job name are
the only per-configuration fields, and the model reproduces all three
shipped TestGetReceiverConfig want rows field for field. -/
theorem prom_receiver_config_fixed_fields :
    (∀ cfg : Config,
        (getPromReceiverConfig cfg).scrapeConfigs.length = 1
        ∧ ∀ sc ∈ (getPromReceiverConfig cfg).scrapeConfigs,
            sc.scrapeTimeout = 10 * second
            ∧ sc.scheme = "http"
            ∧ sc.metricsPath = "/metrics"
            ∧ sc.staticTargets = ["localhost:" ++ toString cfg.port]
            ∧ sc.scrapeInterval = cfg.scrapeInterval
            ∧ sc.jobName = extractName cfg)
    ∧ getPromReceiverConfig noCommandConfig = wantReceiverConfigNoCommand
    ∧ getPromReceiverConfig normalConfig = wantReceiverConfigNormal
    ∧ getPromReceiverConfig defaultsConfig = wantReceiverConfigDefaults := by
  refine ⟨?_, by decide, by decide, by decide⟩
  intro cfg
  refine ⟨rfl, ?_⟩
  intro sc hsc
  simp only [getPromReceiverConfig, List.mem_singleton] at hsc
  subst hsc
  exact ⟨rfl, rfl, rfl, rfl, rfl, rfl⟩

/-- Witness for C10 at the "lots of defaults" configuration and its
single generated scrape configuration. -/
theorem prom_receiver_config_fixed_fields_witness :
    ((wantReceiverConfigDefaults.scrapeConfigs.getD 0 default)
        ∈ (getPromReceiverConfig defaultsConfig).scrapeConfigs)
    ∧ (wantReceiverConfigDefaults.scrapeConfigs.getD 0 default).scrapeTimeout = 10 * second
    ∧ (wantReceiverConfigDefaults.scrapeConfigs.getD 0 default).scheme = "http"
    ∧ (wantReceiverConfigDefaults.scrapeConfigs.getD 0 default).metricsPath = "/metrics"
    ∧ (wantReceiverConfigDefaults.scrapeConfigs.getD 0 default).staticTargets
        = ["localhost:" ++ toString defaultsConfig.port] := by
  have h := (prom_receiver_config_fixed_fields.1 defaultsConfig).2
      (wantReceiverConfigDefaults.scrapeConfigs.getD 0 default) (by decide)
  exact ⟨by decide, h.1, h.2.1, h.2.2.1, h.2.2.2.1⟩

end PromExec
